import Mathlib

/-!
Shallow embedding of `src/tools/benchmark_profile/benchmark_profile.cu`,
an NVBit instrumentation tool that counts executed instructions (generic,
indirect-call, shuffle, ballot) and cooperative-kernel launches.

The external NVBit services (function/instruction enumeration, related
function discovery, probe insertion, device synchronization) are modelled
as opaque data: a context maps each function identity to its related
functions and its decoded instruction list, and probe insertions are
recorded as explicit request values rather than performed.
-/

namespace BenchmarkProfile

/-- Identity of a compiled `CUfunction`. -/
abbrev FuncId := Nat

/-- The four GPU-resident (`__managed__`) per-kernel counters that a probe
can target: `instr_counter`, `shfl_counter`, `ballot_counter`,
`indirect_counter` (lines 59-62 of the source). -/
inductive Counter
  | instr
  | shfl
  | ballot
  | indirect
deriving DecidableEq, Repr

/-- One argument added to an inserted probe call:
`nvbit_add_call_arg_guard_pred_val` (runtime predicate value),
`nvbit_add_call_arg_const_val32` (32-bit constant),
`nvbit_add_call_arg_const_val64` (here always the address of one of the
four managed counters, identified by its `Counter`). -/
inductive CallArg
  | guardPredVal
  | constVal32 (v : Nat)
  | constVal64 (c : Counter)
deriving DecidableEq, Repr

/-- Insertion point of a probe; the tool only ever uses `IPOINT_BEFORE`. -/
inductive InsertPoint
  | before
deriving DecidableEq, Repr

/-- One requested probe insertion: `nvbit_insert_call(i, "count_instrs",
IPOINT_BEFORE)` followed by its `nvbit_add_call_arg_*` calls, with the
arguments recorded in the order they were added. -/
structure Probe where
  fnName : String
  point : InsertPoint
  args : List CallArg
deriving DecidableEq, Repr

/-- A decoded static instruction (`Instr *` of NVBit): its static index
within its function (`getIdx`), opcode (`getOpcode`), short opcode
(`getOpcodeShort`) and SASS text (`getSass`). -/
structure Instr where
  idx : Nat
  opcode : String
  opcodeShort : String
  sass : String
deriving DecidableEq, Repr

/-- The process-wide configuration read from environment variables in
`nvbit_at_init` (lines 65-73 and 92-115). The C integers are modelled as
`Nat`; the `int` flags are kept as integers because the source tests them
as C truth values. -/
structure Config where
  instr_begin_interval : Nat
  instr_end_interval : Nat
  start_grid_num : Nat
  end_grid_num : Nat
  verbose : Nat
  count_warp_level : Nat
  exclude_pred_off : Nat
  active_from_start : Nat
  mangled : Bool
deriving DecidableEq, Repr

/-- Value of `UINT32_MAX`, the default for `INSTR_END` and `END_GRID_NUM`. -/
def UINT32_MAX : Nat := 2 ^ 32 - 1

/-- The default configuration: every `GET_VAR_INT` default of
`nvbit_at_init` (lines 92-115). -/
def defaultConfig : Config :=
  { instr_begin_interval := 0
    instr_end_interval := UINT32_MAX
    start_grid_num := 0
    end_grid_num := UINT32_MAX
    verbose := 0
    count_warp_level := 1
    exclude_pred_off := 0
    active_from_start := 1
    mangled := true }

/-- The opaque NVBit introspection services: `nvbit_get_related_functions`
and `nvbit_get_instrs`, modelled as functions of the function identity. -/
structure Ctx where
  related : FuncId → List FuncId
  instrs : FuncId → List Instr

/-- The test `std::string(s).find("R") != std::string::npos`: the needle
is the one-character string `"R"`, so substring search coincides with
membership of the character `R`. -/
def sassFindR (s : String) : Bool :=
  s.toList.contains 'R'

/-- The guard argument added first to every probe (the same four lines of
code are repeated verbatim in each of the four insertion blocks): the
runtime predicate value when `exclude_pred_off` is configured, otherwise
the 32-bit constant `1`. -/
def guardArg (cfg : Config) : CallArg :=
  if cfg.exclude_pred_off ≠ 0 then CallArg.guardPredVal else CallArg.constVal32 1

/-- One probe insertion block of `instrument_function_if_needed`: insert a
call to `count_instrs` before the instruction, then add the guard value,
the `count_warp_level` flag, and the address of the target counter, in
that order. -/
def mkProbe (cfg : Config) (c : Counter) : Probe :=
  { fnName := "count_instrs"
    point := InsertPoint.before
    args := [guardArg cfg, CallArg.constVal32 cfg.count_warp_level,
             CallArg.constVal64 c] }

/-- The per-instruction body of the instruction loop (lines 155-238): if
the instruction's static index falls in `[instr_begin_interval,
instr_end_interval)`, request the indirect / shuffle / ballot category
probes when their conditions match, and then unconditionally the generic
probe targeting `instr_counter`; otherwise request nothing. -/
def probesForInstr (cfg : Config) (i : Instr) : List Probe :=
  if i.idx ≥ cfg.instr_begin_interval ∧ i.idx < cfg.instr_end_interval then
    (if i.opcode = "CALL.ABS" ∧ sassFindR i.sass = true then
      [mkProbe cfg Counter.indirect] else []) ++
    (if i.opcodeShort = "SHFL" then [mkProbe cfg Counter.shfl] else []) ++
    (if i.opcode = "VOTE.BALL" then [mkProbe cfg Counter.ballot] else []) ++
    [mkProbe cfg Counter.instr]
  else []

/-- The counter targeted by a probe, read back from its recorded argument
list (the third argument added, `nvbit_add_call_arg_const_val64`). -/
def probeCounters (ps : List Probe) : List Counter :=
  ps.filterMap fun p =>
    match p.args with
    | [_, _, CallArg.constVal64 c] => some c
    | _ => none

/-- A probe insertion request attributed to the function and instruction it
targets (`nvbit_insert_call` names the instruction; the instruction
belongs to the function being scanned). -/
structure ProbeReq where
  func : FuncId
  instr : Instr
  probe : Probe
deriving DecidableEq, Repr

/-- All probe requests produced by scanning every instruction of one
newly-recorded function `f`. -/
def probeReqsFor (cfg : Config) (ctx : Ctx) (f : FuncId) : List ProbeReq :=
  (ctx.instrs f).flatMap fun i =>
    (probesForInstr cfg i).map fun p => ⟨f, i, p⟩

/-- One iteration of the `for (auto f : related_functions)` loop of
`instrument_function_if_needed` (lines 137-239): attempt the
`already_instrumented.insert(f)`; if the insertion fails (`f` already
present) `continue` with no probe requests, otherwise scan `f`'s
instructions. The `std::unordered_set` is modelled as the list of
identities inserted so far. -/
def processFunc (cfg : Config) (ctx : Ctx) (s : List FuncId) (f : FuncId) :
    List FuncId × List ProbeReq :=
  if f ∈ s then (s, [])
  else (f :: s, probeReqsFor cfg ctx f)

/-- The whole related-function loop over a given worklist, threading the
instrumented set and concatenating the probe requests in order. -/
def processFuncs (cfg : Config) (ctx : Ctx) (s : List FuncId) :
    List FuncId → List FuncId × List ProbeReq
  | [] => (s, [])
  | f :: fs =>
    let r := processFunc cfg ctx s f
    let rest := processFuncs cfg ctx r.1 fs
    (rest.1, r.2 ++ rest.2)

/-- The function `instrument_function_if_needed(ctx, func)` (lines
127-241): obtain the
related functions of `func`, append `func` itself
(`related_functions.push_back(func)`), and run the loop. Returns the
updated `already_instrumented` set and the probe requests issued. -/
def instrument_function_if_needed (cfg : Config) (ctx : Ctx)
    (s : List FuncId) (func : FuncId) : List FuncId × List ProbeReq :=
  processFuncs cfg ctx s (ctx.related func ++ [func])

/-- A number of successive invocations of `instrument_function_if_needed` with the
same function, threading the instrumented set and accumulating all probe
requests. -/
def instrumentN (cfg : Config) (ctx : Ctx) (s : List FuncId) (func : FuncId) :
    Nat → List FuncId × List ProbeReq
  | 0 => (s, [])
  | n + 1 =>
    let r := instrument_function_if_needed cfg ctx s func
    let rest := instrumentN cfg ctx r.1 func n
    (rest.1, r.2 ++ rest.2)

/-- The CUDA driver callback identities the tool inspects
(`nvbit_api_cuda_t` values named in `nvbit_at_cuda_event`); every other
callback id is collapsed into `other`. -/
inductive CbId
  | cuLaunch
  | cuLaunchKernel_ptsz
  | cuLaunchGrid
  | cuLaunchGridAsync
  | cuLaunchKernel
  | cuLaunchKernelEx
  | cuLaunchKernelEx_ptsz
  | cuLaunchCooperativeKernel
  | cuLaunchCooperativeKernel_ptsz
  | cuLaunchCooperativeKernelMultiDevice
  | cuProfilerStart
  | cuProfilerStop
  | other
deriving DecidableEq, Repr

/-- The first condition of `nvbit_at_cuda_event` (lines 252-256): the seven
non-cooperative launch callback ids. -/
def isLaunchId : CbId → Bool
  | CbId.cuLaunch => true
  | CbId.cuLaunchKernel_ptsz => true
  | CbId.cuLaunchGrid => true
  | CbId.cuLaunchGridAsync => true
  | CbId.cuLaunchKernel => true
  | CbId.cuLaunchKernelEx => true
  | CbId.cuLaunchKernelEx_ptsz => true
  | _ => false

/-- The cooperative-launch callback ids (lines 330-332). -/
def isCoopLaunchId : CbId → Bool
  | CbId.cuLaunchCooperativeKernel => true
  | CbId.cuLaunchCooperativeKernel_ptsz => true
  | CbId.cuLaunchCooperativeKernelMultiDevice => true
  | _ => false

/-- The mutable process state of the tool: the kernel sequence index
(`kernel_id`, line 48), the five host-resident totals (lines 52-56), the
four GPU-resident per-kernel counters (lines 59-62), the active-region
flag (line 76) and the instrumented-function set (line 125). All the
counters are unsigned 64-bit in the source; additions into them are taken
modulo `2 ^ 64`. -/
structure ToolState where
  kernel_id : Nat
  total_instr : Nat
  total_cg : Nat
  total_indirect : Nat
  total_shfl : Nat
  total_ballot : Nat
  instr_counter : Nat
  shfl_counter : Nat
  ballot_counter : Nat
  indirect_counter : Nat
  active_region : Bool
  already_instrumented : List FuncId
deriving DecidableEq, Repr

/-- The observable calls the handler makes into its external collaborators:
the mutex, the probe-insertion primitive, `nvbit_enable_instrumented` and
`cudaDeviceSynchronize`. -/
inductive Action
  | lock
  | unlock
  | sync
  | enableInstrumented (f : FuncId) (enabled : Bool)
  | insert (r : ProbeReq)
deriving DecidableEq, Repr

/-- Modulus of the `uint64_t` counters. -/
def U64_MOD : Nat := 2 ^ 64

/-- The callback `nvbit_at_cuda_event` (lines 249-345), for one delivered callback: the
callback id, the phase flag `is_exit`, and the launched function extracted
from the launch parameters. Returns the new state and the list of external
calls made, in order. -/
def nvbit_at_cuda_event (cfg : Config) (ctx : Ctx) (st : ToolState)
    (cbid : CbId) (is_exit : Bool) (func : FuncId) :
    ToolState × List Action :=
  if isLaunchId cbid then
    if !is_exit then
      let r := instrument_function_if_needed cfg ctx st.already_instrumented func
      let st1 := { st with already_instrumented := r.1 }
      let st2 :=
        if cfg.active_from_start ≠ 0 then
          if st1.kernel_id ≥ cfg.start_grid_num ∧
              st1.kernel_id < cfg.end_grid_num then
            { st1 with active_region := true }
          else
            { st1 with active_region := false }
        else st1
      let st3 := { st2 with
        instr_counter := 0
        indirect_counter := 0
        shfl_counter := 0
        ballot_counter := 0 }
      (st3,
        Action.lock :: r.2.map Action.insert ++
          [Action.enableInstrumented func st2.active_region])
    else
      let st1 := { st with
        total_instr := (st.total_instr + st.instr_counter) % U64_MOD
        total_indirect := (st.total_indirect + st.indirect_counter) % U64_MOD
        total_shfl := (st.total_shfl + st.shfl_counter) % U64_MOD
        total_ballot := (st.total_ballot + st.ballot_counter) % U64_MOD }
      (st1, [Action.sync, Action.unlock])
  else if isCoopLaunchId cbid then
    if is_exit then
      ({ st with total_cg := (st.total_cg + 1) % U64_MOD }, [])
    else (st, [])
  else if cbid = CbId.cuProfilerStart ∧ is_exit = true then
    (if cfg.active_from_start = 0 then { st with active_region := true }
     else st, [])
  else if cbid = CbId.cuProfilerStop ∧ is_exit = true then
    (if cfg.active_from_start = 0 then { st with active_region := false }
     else st, [])
  else (st, [])

/-- An external stimulus to the tool: a CUDA driver callback, or the
asynchronous probe increments performed by the GPU while a kernel runs
(the external collaborator that writes the four managed counters). -/
inductive Event
  | cuda (cbid : CbId) (is_exit : Bool) (func : FuncId)
  | deviceAdd (di dsh db dind : Nat)
deriving DecidableEq, Repr

/-- One event step: CUDA callbacks go through `nvbit_at_cuda_event`;
`deviceAdd` adds the probe contributions to the managed counters and makes
no external call. -/
def step (cfg : Config) (ctx : Ctx) (st : ToolState) :
    Event → ToolState × List Action
  | Event.cuda cbid is_exit func => nvbit_at_cuda_event cfg ctx st cbid is_exit func
  | Event.deviceAdd di dsh db dind =>
    ({ st with
        instr_counter := (st.instr_counter + di) % U64_MOD
        shfl_counter := (st.shfl_counter + dsh) % U64_MOD
        ballot_counter := (st.ballot_counter + db) % U64_MOD
        indirect_counter := (st.indirect_counter + dind) % U64_MOD }, [])

/-- Run a sequence of events from a state, collecting every external call
in order. -/
def run (cfg : Config) (ctx : Ctx) (st : ToolState) :
    List Event → ToolState × List Action
  | [] => (st, [])
  | e :: es =>
    let r := step cfg ctx st e
    let rest := run cfg ctx r.1 es
    (rest.1, r.2 ++ rest.2)

/-- The state after `nvbit_at_init`: all counters zero, empty instrumented
set, and `active_region` true unless `active_from_start == 0`
(lines 48-76 and 116-118). -/
def initState (cfg : Config) : ToolState :=
  { kernel_id := 0
    total_instr := 0
    total_cg := 0
    total_indirect := 0
    total_shfl := 0
    total_ballot := 0
    instr_counter := 0
    shfl_counter := 0
    ballot_counter := 0
    indirect_counter := 0
    active_region := ¬ (cfg.active_from_start = 0)
    already_instrumented := [] }

/-- The reporter `nvbit_at_term` (lines 347-356): the five summary lines printed at
process termination, in order. -/
def nvbit_at_term (cfg : Config) (st : ToolState) : List String :=
  ["Total indirect function calls: " ++ toString st.total_indirect,
   "Total cooperative group kernel launches: " ++ toString st.total_cg,
   (if cfg.count_warp_level = 1 then "Total instructions (warp level): "
    else "Total instructions (thread level): ") ++ toString st.total_instr,
   "Total __shfl_sync() calls: " ++ toString st.total_shfl,
   "Total __ballot_sync() calls: " ++ toString st.total_ballot]

/-- Test whether an event is a profiler start/stop callback. -/
def isProfilerEvent : Event → Bool
  | Event.cuda CbId.cuProfilerStart _ _ => true
  | Event.cuda CbId.cuProfilerStop _ _ => true
  | _ => false

/-- The event sequence of a number of cooperative-kernel launches, each an
entry callback followed by its matching exit callback. -/
def coopLaunchEvents (cbid : CbId) (f : FuncId) (n : Nat) : List Event :=
  (List.replicate n [Event.cuda cbid false f, Event.cuda cbid true f]).flatten

/-- The list of counters targeted by the probes requested for one eligible
instruction, in source order: the three category counters when their
conditions match, then unconditionally the generic `instr_counter`. -/
def catsForInstr (i : Instr) : List Counter :=
  (if i.opcode = "CALL.ABS" ∧ sassFindR i.sass = true then
    [Counter.indirect] else []) ++
  (if i.opcodeShort = "SHFL" then [Counter.shfl] else []) ++
  (if i.opcode = "VOTE.BALL" then [Counter.ballot] else []) ++
  [Counter.instr]

/-- A context with no functions: every function has no related functions
and no instructions. -/
def ctxEmpty : Ctx :=
  { related := fun _ => [], instrs := fun _ => [] }

/-- A plain instruction matching no category (its opcode is neither
`CALL.ABS` nor `VOTE.BALL` and its short opcode is not `SHFL`). -/
def instrPlain : Instr :=
  { idx := 0, opcode := "MOV", opcodeShort := "MOV", sass := "MOV R1, R2" }

/-- An instruction that is an indirect call: opcode `CALL.ABS` with a
register reference in its SASS text. -/
def instrCall : Instr :=
  { idx := 3, opcode := "CALL.ABS", opcodeShort := "CALL", sass := "CALL.ABS R7" }

/-- A context where function `0` has related function `1`, function `1`
has related function `2`, and every function has one plain instruction. -/
def ctxChain : Ctx :=
  { related := fun f => if f = 0 then [1] else if f = 1 then [2] else []
    instrs := fun _ => [instrPlain] }

/-- A configuration whose launch-index interval is `[0, 1)`. -/
def cfgGrid1 : Config :=
  { defaultConfig with end_grid_num := 1 }

/-- A misconfigured instruction interval with `begin > end`. -/
def cfgEmptyIv : Config :=
  { defaultConfig with instr_begin_interval := 5, instr_end_interval := 3 }

/-! ## Helper lemmas about the instrumentor -/

theorem mem_processFunc {cfg : Config} {ctx : Ctx} {s : List FuncId}
    {f : FuncId} (g : FuncId) (h : f ∈ s) : f ∈ (processFunc cfg ctx s g).1 := by
  unfold processFunc
  split_ifs with hg
  · exact h
  · exact List.mem_cons_of_mem _ h

theorem self_mem_processFunc (cfg : Config) (ctx : Ctx) (s : List FuncId)
    (g : FuncId) : g ∈ (processFunc cfg ctx s g).1 := by
  unfold processFunc
  split_ifs with hg
  · exact hg
  · exact List.mem_cons_self _ _

theorem mem_processFuncs {cfg : Config} {ctx : Ctx} {s : List FuncId}
    {f : FuncId} (fs : List FuncId) (h : f ∈ s) :
    f ∈ (processFuncs cfg ctx s fs).1 := by
  induction fs generalizing s with
  | nil => exact h
  | cons g gs ih => exact ih (mem_processFunc g h)

theorem all_mem_processFuncs {cfg : Config} {ctx : Ctx} {s : List FuncId}
    {g : FuncId} {fs : List FuncId} (h : g ∈ fs) :
    g ∈ (processFuncs cfg ctx s fs).1 := by
  induction fs generalizing s with
  | nil => cases h
  | cons a as ih =>
    rcases List.mem_cons.mp h with rfl | hg
    · exact mem_processFuncs as (self_mem_processFunc cfg ctx s g)
    · exact ih hg

theorem probeReqsFor_func {cfg : Config} {ctx : Ctx} {f : FuncId}
    {r : ProbeReq} (h : r ∈ probeReqsFor cfg ctx f) : r.func = f := by
  simp only [probeReqsFor, List.mem_flatMap, List.mem_map] at h
  obtain ⟨i, _, p, _, rfl⟩ := h
  rfl

theorem processFuncs_no_reqs {cfg : Config} {ctx : Ctx} {s : List FuncId}
    {f : FuncId} (fs : List FuncId) (h : f ∈ s) :
    ∀ r ∈ (processFuncs cfg ctx s fs).2, r.func ≠ f := by
  induction fs generalizing s with
  | nil => intro r hr; cases hr
  | cons g gs ih =>
    intro r hr
    simp only [processFuncs, List.mem_append] at hr
    rcases hr with hr | hr
    · unfold processFunc at hr
      split_ifs at hr with hg
      · cases hr
      · rw [probeReqsFor_func hr]
        rintro rfl
        exact hg h
    · exact ih (mem_processFunc g h) r hr

theorem processFuncs_all_mem {cfg : Config} {ctx : Ctx} {s : List FuncId}
    {fs : List FuncId} (h : ∀ g ∈ fs, g ∈ s) :
    processFuncs cfg ctx s fs = (s, []) := by
  induction fs with
  | nil => rfl
  | cons g gs ih =>
    have hg : g ∈ s := h g (List.mem_cons_self _ _)
    simp only [processFuncs, processFunc, if_pos hg]
    rw [ih (fun x hx => h x (List.mem_cons_of_mem _ hx))]
    rfl

theorem processFuncs_append (cfg : Config) (ctx : Ctx) (s : List FuncId)
    (as bs : List FuncId) :
    processFuncs cfg ctx s (as ++ bs) =
      ((processFuncs cfg ctx (processFuncs cfg ctx s as).1 bs).1,
        (processFuncs cfg ctx s as).2 ++
          (processFuncs cfg ctx (processFuncs cfg ctx s as).1 bs).2) := by
  induction as generalizing s with
  | nil => simp [processFuncs]
  | cons a as ih =>
    simp only [List.cons_append, processFuncs, List.append_eq]
    rw [ih]
    simp [List.append_assoc]

theorem instrument_mem_all (cfg : Config) (ctx : Ctx) (s : List FuncId)
    (func : FuncId) :
    ∀ g ∈ ctx.related func ++ [func],
      g ∈ (instrument_function_if_needed cfg ctx s func).1 :=
  fun _ hg => all_mem_processFuncs hg

theorem instrument_noop {cfg : Config} {ctx : Ctx} {s : List FuncId}
    {func : FuncId} (h : ∀ g ∈ ctx.related func ++ [func], g ∈ s) :
    instrument_function_if_needed cfg ctx s func = (s, []) :=
  processFuncs_all_mem h

theorem instrumentN_noop {cfg : Config} {ctx : Ctx} {s : List FuncId}
    {func : FuncId} (h : ∀ g ∈ ctx.related func ++ [func], g ∈ s) :
    ∀ n, instrumentN cfg ctx s func n = (s, []) := by
  intro n
  induction n with
  | zero => rfl
  | succ n ih =>
    simp only [instrumentN, instrument_noop h, ih]
    rfl

/-! ## Helper lemmas about the classifier and probe shape -/

theorem probesForInstr_eligible {cfg : Config} {i : Instr}
    (h1 : cfg.instr_begin_interval ≤ i.idx)
    (h2 : i.idx < cfg.instr_end_interval) :
    probesForInstr cfg i = (catsForInstr i).map (mkProbe cfg) := by
  rw [probesForInstr, if_pos ⟨h1, h2⟩]
  unfold catsForInstr
  split_ifs <;> simp

theorem probeCounters_map (cfg : Config) (cs : List Counter) :
    probeCounters (cs.map (mkProbe cfg)) = cs := by
  induction cs with
  | nil => rfl
  | cons c cs ih =>
    show c :: probeCounters (cs.map (mkProbe cfg)) = c :: cs
    rw [ih]

theorem catsForInstr_nodup (i : Instr) : (catsForInstr i).Nodup := by
  unfold catsForInstr
  split_ifs <;> decide

theorem catsForInstr_length_le (i : Instr) : (catsForInstr i).length ≤ 4 := by
  unfold catsForInstr
  split_ifs <;> decide

/-! ## Helper lemmas about the launch interceptor -/

theorem coop_entry_step (cfg : Config) (ctx : Ctx) (st : ToolState)
    {cbid : CbId} (f : FuncId) (h : isCoopLaunchId cbid = true) :
    nvbit_at_cuda_event cfg ctx st cbid false f = (st, []) := by
  cases cbid <;> simp_all [isCoopLaunchId, isLaunchId, nvbit_at_cuda_event]

theorem coop_exit_step (cfg : Config) (ctx : Ctx) (st : ToolState)
    {cbid : CbId} (f : FuncId) (h : isCoopLaunchId cbid = true) :
    nvbit_at_cuda_event cfg ctx st cbid true f =
      ({ st with total_cg := (st.total_cg + 1) % U64_MOD }, []) := by
  cases cbid <;> simp_all [isCoopLaunchId, isLaunchId, nvbit_at_cuda_event]

theorem profiler_step_id (cfg : Config) (ctx : Ctx) (st : ToolState)
    (e : Event) (ha : cfg.active_from_start ≠ 0)
    (he : isProfilerEvent e = true) : step cfg ctx st e = (st, []) := by
  cases e with
  | deviceAdd di dsh db dind => cases he
  | cuda cbid ie f =>
    cases cbid <;> cases ie <;>
      simp_all [isProfilerEvent, step, nvbit_at_cuda_event, isLaunchId,
        isCoopLaunchId]

theorem run_filter_profiler (cfg : Config) (ctx : Ctx)
    (ha : cfg.active_from_start ≠ 0) (st : ToolState) (es : List Event) :
    run cfg ctx st (es.filter fun ev => !isProfilerEvent ev) =
      run cfg ctx st es := by
  induction es generalizing st with
  | nil => rfl
  | cons e es ih =>
    by_cases hp : isProfilerEvent e = true
    · rw [List.filter_cons_of_neg (by simp [hp])]
      show run cfg ctx st (es.filter fun ev => !isProfilerEvent ev) = _
      rw [ih]
      simp only [run, profiler_step_id cfg ctx st e ha hp]
      rfl
    · rw [List.filter_cons_of_pos (by simp [hp])]
      simp only [run]
      rw [ih]

theorem probesForInstr_congr (cfg1 cfg2 : Config)
    (hb : cfg1.instr_begin_interval = cfg2.instr_begin_interval)
    (he : cfg1.instr_end_interval = cfg2.instr_end_interval)
    (hp : cfg1.exclude_pred_off = cfg2.exclude_pred_off)
    (hw : cfg1.count_warp_level = cfg2.count_warp_level) (i : Instr) :
    probesForInstr cfg1 i = probesForInstr cfg2 i := by
  unfold probesForInstr mkProbe guardArg
  rw [hb, he, hp, hw]

theorem probeReqsFor_congr (cfg1 cfg2 : Config)
    (hb : cfg1.instr_begin_interval = cfg2.instr_begin_interval)
    (he : cfg1.instr_end_interval = cfg2.instr_end_interval)
    (hp : cfg1.exclude_pred_off = cfg2.exclude_pred_off)
    (hw : cfg1.count_warp_level = cfg2.count_warp_level) (ctx : Ctx)
    (f : FuncId) : probeReqsFor cfg1 ctx f = probeReqsFor cfg2 ctx f := by
  unfold probeReqsFor
  refine congrArg _ (funext fun i => ?_)
  rw [probesForInstr_congr cfg1 cfg2 hb he hp hw]

theorem processFuncs_congr (cfg1 cfg2 : Config)
    (hb : cfg1.instr_begin_interval = cfg2.instr_begin_interval)
    (he : cfg1.instr_end_interval = cfg2.instr_end_interval)
    (hp : cfg1.exclude_pred_off = cfg2.exclude_pred_off)
    (hw : cfg1.count_warp_level = cfg2.count_warp_level) (ctx : Ctx)
    (fs : List FuncId) : ∀ s,
    processFuncs cfg1 ctx s fs = processFuncs cfg2 ctx s fs := by
  induction fs with
  | nil => intro s; rfl
  | cons f fs ih =>
    intro s
    simp only [processFuncs, processFunc,
      probeReqsFor_congr cfg1 cfg2 hb he hp hw, ih]

theorem instrument_congr (cfg1 cfg2 : Config)
    (hb : cfg1.instr_begin_interval = cfg2.instr_begin_interval)
    (he : cfg1.instr_end_interval = cfg2.instr_end_interval)
    (hp : cfg1.exclude_pred_off = cfg2.exclude_pred_off)
    (hw : cfg1.count_warp_level = cfg2.count_warp_level) (ctx : Ctx)
    (s : List FuncId) (f : FuncId) :
    instrument_function_if_needed cfg1 ctx s f =
      instrument_function_if_needed cfg2 ctx s f :=
  processFuncs_congr cfg1 cfg2 hb he hp hw ctx (ctx.related f ++ [f]) s

theorem step_grid_congr (cfg : Config) (g1 g2 : Nat) (ctx : Ctx)
    (st : ToolState) (e : Event) (ha : cfg.active_from_start = 0) :
    step { cfg with start_grid_num := g1, end_grid_num := g2 } ctx st e =
      step cfg ctx st e := by
  cases e with
  | deviceAdd di dsh db dind => rfl
  | cuda cbid ie f =>
    simp only [step, nvbit_at_cuda_event]
    rw [instrument_congr { cfg with start_grid_num := g1, end_grid_num := g2 }
      cfg rfl rfl rfl rfl ctx st.already_instrumented f]
    simp [ha]

theorem run_grid_congr (cfg : Config) (g1 g2 : Nat) (ctx : Ctx)
    (st : ToolState) (es : List Event) (ha : cfg.active_from_start = 0) :
    run { cfg with start_grid_num := g1, end_grid_num := g2 } ctx st es =
      run cfg ctx st es := by
  induction es generalizing st with
  | nil => rfl
  | cons e es ih =>
    simp only [run, step_grid_congr cfg g1 g2 ctx st e ha, ih]

theorem run_coop_block (cfg : Config) (ctx : Ctx) (st : ToolState)
    {cbid : CbId} (f : FuncId) (es : List Event)
    (h : isCoopLaunchId cbid = true) :
    run cfg ctx st (Event.cuda cbid false f :: Event.cuda cbid true f :: es) =
      run cfg ctx { st with total_cg := (st.total_cg + 1) % U64_MOD } es := by
  simp only [run, step]
  rw [coop_entry_step cfg ctx st f h]
  simp only []
  rw [coop_exit_step cfg ctx st f h]
  simp

/-- A configuration in externally-signalled region mode
(`ACTIVE_FROM_START=0`). -/
def cfgExternal : Config :=
  { defaultConfig with active_from_start := 0 }

/-! ## The claims -/

/-- C1: the claim states that every non-cooperative launch entry increments
the kernel sequence index, so that after `n` entries it equals `n` and the
active-region decision for launch `n` is computed from `n`. In the code
`kernel_id` is never modified (the only `kernel_id++` sits inside the
commented-out diagnostic print), so no event ever changes it; concretely,
with launch interval `[0, 1)`, after one full launch and a second entry the
index is still `0` and the second launch is still enabled, where the claim
requires it disabled. -/
theorem c1_kernel_id_never_incremented :
    (∀ (cfg : Config) (ctx : Ctx) (st : ToolState) (e : Event),
      (step cfg ctx st e).1.kernel_id = st.kernel_id) ∧
    (run cfgGrid1 ctxEmpty (initState cfgGrid1)
        [Event.cuda CbId.cuLaunchKernel false 7,
         Event.cuda CbId.cuLaunchKernel true 7,
         Event.cuda CbId.cuLaunchKernel false 7]).1.kernel_id = 0 ∧
    (run cfgGrid1 ctxEmpty (initState cfgGrid1)
        [Event.cuda CbId.cuLaunchKernel false 7,
         Event.cuda CbId.cuLaunchKernel true 7,
         Event.cuda CbId.cuLaunchKernel false 7]).2 =
      [Action.lock, Action.enableInstrumented 7 true, Action.sync,
       Action.unlock, Action.lock, Action.enableInstrumented 7 true] := by
  refine ⟨?_, by decide, by decide⟩
  intro cfg ctx st e
  cases e with
  | deviceAdd di dsh db dind => rfl
  | cuda cbid ie f =>
    simp only [step, nvbit_at_cuda_event]
    split_ifs <;> rfl

/-- C2: however many times `instrument_function_if_needed` is invoked with
the same function, the probe requests are those of the first invocation
alone; a function already in the instrumented set never receives another
probe request, whichever call site rediscovers it. -/
theorem c2_instrument_idempotent :
    ∀ (cfg : Config) (ctx : Ctx) (s : List FuncId) (func : FuncId) (n : Nat)
      (f : FuncId),
    (f ∈ s →
      ∀ r ∈ (instrument_function_if_needed cfg ctx s func).2, r.func ≠ f) ∧
    instrumentN cfg ctx s func (n + 1) =
      instrument_function_if_needed cfg ctx s func := by
  intro cfg ctx s func n f
  refine ⟨fun hf => processFuncs_no_reqs _ hf, ?_⟩
  simp only [instrumentN]
  rw [instrumentN_noop (instrument_mem_all cfg ctx s func) n]
  simp

theorem c2_witness :
    (∀ r ∈ (instrument_function_if_needed defaultConfig ctxChain [5] 0).2,
      r.func ≠ 5) ∧
    instrumentN defaultConfig ctxChain [5] 0 2 =
      instrument_function_if_needed defaultConfig ctxChain [5] 0 :=
  ⟨(c2_instrument_idempotent defaultConfig ctxChain [5] 0 1 5).1 (by decide),
   (c2_instrument_idempotent defaultConfig ctxChain [5] 0 1 5).2⟩

/-- C3: a probe is requested for an instruction, in any category including
the generic count, exactly when its static index lies in
`[instr_begin_interval, instr_end_interval)`; with a malformed interval
(`begin >= end`) no instruction receives any probe. -/
theorem c3_eligibility_interval :
    ∀ (cfg : Config) (i : Instr),
    (probesForInstr cfg i ≠ [] ↔
      cfg.instr_begin_interval ≤ i.idx ∧ i.idx < cfg.instr_end_interval) ∧
    (cfg.instr_end_interval ≤ cfg.instr_begin_interval →
      probesForInstr cfg i = []) := by
  intro cfg i
  constructor
  · unfold probesForInstr
    by_cases h : i.idx ≥ cfg.instr_begin_interval ∧ i.idx < cfg.instr_end_interval
    · rw [if_pos h]
      exact ⟨fun _ => h, fun _ => by simp⟩
    · rw [if_neg h]
      simpa using h
  · intro hle
    unfold probesForInstr
    rw [if_neg]
    rintro ⟨h1, h2⟩
    omega

theorem c3_witness : probesForInstr cfgEmptyIv instrPlain = [] :=
  (c3_eligibility_interval cfgEmptyIv instrPlain).2 (by decide)

/-- C4 counterexample: the claim states that invoking the instrumentor with
an already-instrumented function skips everything, including the discovery
and visiting of its related functions. In the code the related functions
are obtained unconditionally before the set check, so a second encounter of
parent `1` (instrumented earlier as a related function of `0`) still
discovers and instruments its own related function `2`, issuing probe
requests. -/
theorem c4_counterexample :
    1 ∈ (instrument_function_if_needed defaultConfig ctxChain [] 0).1 ∧
    (instrument_function_if_needed defaultConfig ctxChain
        (instrument_function_if_needed defaultConfig ctxChain [] 0).1 1).2 ≠
      [] := by
  decide

/-- C4 amended: on an invocation whose function is already in the
instrumented set, only that function's own body is skipped (no probe
request for it, no set change from it): the invocation still resolves the
related-function list and behaves exactly as processing that list alone,
so not-yet-instrumented related functions are still instrumented. -/
theorem c4_amended_skip :
    ∀ (cfg : Config) (ctx : Ctx) (s : List FuncId) (func : FuncId),
    func ∈ s →
    instrument_function_if_needed cfg ctx s func =
      processFuncs cfg ctx s (ctx.related func) ∧
    ∀ r ∈ (instrument_function_if_needed cfg ctx s func).2, r.func ≠ func := by
  intro cfg ctx s func h
  constructor
  · unfold instrument_function_if_needed
    rw [processFuncs_append]
    rw [processFuncs_all_mem (fun g hg => by
      rcases List.mem_singleton.mp hg with rfl
      exact mem_processFuncs _ h)]
    simp
  · exact fun r hr => processFuncs_no_reqs _ h r hr

theorem c4_amended_witness :
    instrument_function_if_needed defaultConfig ctxChain [0] 0 =
      processFuncs defaultConfig ctxChain [0] (ctxChain.related 0) ∧
    ∀ r ∈ (instrument_function_if_needed defaultConfig ctxChain [0] 0).2,
      r.func ≠ 0 :=
  c4_amended_skip defaultConfig ctxChain [0] 0 (by decide)

/-- C5: an eligible instruction receives the generic probe unconditionally
plus one probe per matched category — at most four, with pairwise distinct
target counters — and every probe is an insertion of `count_instrs` before
the instruction whose arguments are, in order: the guard (runtime predicate
value when `exclude_pred_off` is set, else the constant true), the
`count_warp_level` flag, and the address of that probe's counter. -/
theorem c5_probe_requests :
    ∀ (cfg : Config) (i : Instr),
    cfg.instr_begin_interval ≤ i.idx → i.idx < cfg.instr_end_interval →
    probeCounters (probesForInstr cfg i) = catsForInstr i ∧
    Counter.instr ∈ probeCounters (probesForInstr cfg i) ∧
    (probeCounters (probesForInstr cfg i)).Nodup ∧
    (probesForInstr cfg i).length = (catsForInstr i).length ∧
    (probesForInstr cfg i).length ≤ 4 ∧
    (∀ p ∈ probesForInstr cfg i,
      p.fnName = "count_instrs" ∧ p.point = InsertPoint.before ∧
      ∃ c, p.args = [guardArg cfg, CallArg.constVal32 cfg.count_warp_level,
        CallArg.constVal64 c]) ∧
    (cfg.exclude_pred_off ≠ 0 → guardArg cfg = CallArg.guardPredVal) ∧
    (cfg.exclude_pred_off = 0 → guardArg cfg = CallArg.constVal32 1) := by
  intro cfg i h1 h2
  rw [probesForInstr_eligible h1 h2, probeCounters_map]
  refine ⟨rfl, ?_, catsForInstr_nodup i, by simp, ?_, ?_, ?_, ?_⟩
  · unfold catsForInstr
    simp
  · rw [List.length_map]
    exact catsForInstr_length_le i
  · intro p hp
    rcases List.mem_map.mp hp with ⟨c, _, rfl⟩
    exact ⟨rfl, rfl, c, rfl⟩
  · intro h
    unfold guardArg
    rw [if_pos h]
  · intro h
    unfold guardArg
    rw [if_neg (by simp [h])]

theorem c5_witness :
    probeCounters (probesForInstr defaultConfig instrCall) =
      catsForInstr instrCall ∧
    Counter.instr ∈ probeCounters (probesForInstr defaultConfig instrCall) :=
  ⟨(c5_probe_requests defaultConfig instrCall (by decide) (by decide)).1,
   (c5_probe_requests defaultConfig instrCall (by decide) (by decide)).2.1⟩

/-- C6: an eligible instruction receives a probe targeting the indirect
counter exactly when its opcode equals `CALL.ABS` and its SASS text
contains the substring `R`; negating either condition removes the
classification. -/
theorem c6_indirect_classification :
    ∀ (cfg : Config) (i : Instr),
    cfg.instr_begin_interval ≤ i.idx → i.idx < cfg.instr_end_interval →
    (Counter.indirect ∈ probeCounters (probesForInstr cfg i) ↔
      i.opcode = "CALL.ABS" ∧ sassFindR i.sass = true) := by
  intro cfg i h1 h2
  rw [probesForInstr_eligible h1 h2, probeCounters_map]
  unfold catsForInstr
  split_ifs <;> simp_all

theorem c6_witness :
    Counter.indirect ∈ probeCounters (probesForInstr defaultConfig instrCall) :=
  (c6_indirect_classification defaultConfig instrCall (by decide)
    (by decide)).mpr (by decide)

/-- C7: region-mode exclusivity. With `active_from_start` nonzero the
profiler start/stop callbacks are identities on the state and removing
them from any event sequence changes nothing; with `active_from_start`
zero the `start_grid_num` / `end_grid_num` interval has no effect on any
run. -/
theorem c7_region_mode_exclusivity :
    ∀ (cfg : Config) (ctx : Ctx) (st : ToolState) (es : List Event)
      (f : FuncId) (ie : Bool),
    (cfg.active_from_start ≠ 0 →
      nvbit_at_cuda_event cfg ctx st CbId.cuProfilerStart ie f = (st, []) ∧
      nvbit_at_cuda_event cfg ctx st CbId.cuProfilerStop ie f = (st, []) ∧
      run cfg ctx st (es.filter fun ev => !isProfilerEvent ev) =
        run cfg ctx st es) ∧
    (cfg.active_from_start = 0 → ∀ g1 g2,
      run { cfg with start_grid_num := g1, end_grid_num := g2 } ctx st es =
        run cfg ctx st es) := by
  intro cfg ctx st es f ie
  constructor
  · intro ha
    refine ⟨?_, ?_, run_filter_profiler cfg ctx ha st es⟩
    · exact profiler_step_id cfg ctx st
        (Event.cuda CbId.cuProfilerStart ie f) ha rfl
    · exact profiler_step_id cfg ctx st
        (Event.cuda CbId.cuProfilerStop ie f) ha rfl
  · intro ha g1 g2
    exact run_grid_congr cfg g1 g2 ctx st es ha

theorem c7_witness :
    (nvbit_at_cuda_event defaultConfig ctxEmpty (initState defaultConfig)
        CbId.cuProfilerStart true 0 = (initState defaultConfig, []) ∧
      nvbit_at_cuda_event defaultConfig ctxEmpty (initState defaultConfig)
        CbId.cuProfilerStop true 0 = (initState defaultConfig, []) ∧
      run defaultConfig ctxEmpty (initState defaultConfig)
        ([Event.cuda CbId.cuProfilerStart true 0,
          Event.cuda CbId.cuLaunchKernel false 3].filter
            fun ev => !isProfilerEvent ev) =
        run defaultConfig ctxEmpty (initState defaultConfig)
          [Event.cuda CbId.cuProfilerStart true 0,
           Event.cuda CbId.cuLaunchKernel false 3]) ∧
    run { cfgExternal with start_grid_num := 5, end_grid_num := 7 } ctxEmpty
        (initState cfgExternal) [Event.cuda CbId.cuLaunchKernel false 3] =
      run cfgExternal ctxEmpty (initState cfgExternal)
        [Event.cuda CbId.cuLaunchKernel false 3] :=
  ⟨(c7_region_mode_exclusivity defaultConfig ctxEmpty
      (initState defaultConfig)
      [Event.cuda CbId.cuProfilerStart true 0,
       Event.cuda CbId.cuLaunchKernel false 3] 0 true).1 (by decide),
   (c7_region_mode_exclusivity cfgExternal ctxEmpty (initState cfgExternal)
      [Event.cuda CbId.cuLaunchKernel false 3] 0 true).2 (by decide) 5 7⟩

/-- C8: any number of cooperative-kernel launches (each an entry and a
matching exit) only adds that number to the cooperative-launch total; the
four instruction totals, all counters, the active flag and the
instrumented set are untouched, and no external call is made. -/
theorem c8_cooperative_frame :
    ∀ (cfg : Config) (ctx : Ctx) (cbid : CbId) (f : FuncId) (n : Nat)
      (st : ToolState),
    isCoopLaunchId cbid = true →
    run cfg ctx st (coopLaunchEvents cbid f (n + 1)) =
      ({ st with total_cg := (st.total_cg + (n + 1)) % U64_MOD }, []) := by
  intro cfg ctx cbid f n st h
  induction n generalizing st with
  | zero =>
    simp only [coopLaunchEvents, List.replicate_succ, List.replicate_zero,
      List.flatten_cons, List.flatten_nil, List.append_nil]
    rw [run_coop_block cfg ctx st f [] h]
    rfl
  | succ n ih =>
    simp only [coopLaunchEvents] at ih ⊢
    rw [List.replicate_succ, List.flatten_cons]
    simp only [List.cons_append, List.nil_append]
    rw [run_coop_block cfg ctx st f _ h, ih]
    have hmod : ((st.total_cg + 1) % U64_MOD + (n + 1)) % U64_MOD =
        (st.total_cg + (n + 1 + 1)) % U64_MOD := by
      rw [Nat.mod_add_mod]
      congr 1
      omega
    rw [hmod]

theorem c8_witness :
    isCoopLaunchId CbId.cuLaunchCooperativeKernel = true ∧
    run defaultConfig ctxEmpty (initState defaultConfig)
        (coopLaunchEvents CbId.cuLaunchCooperativeKernel 3 (1 + 1)) =
      ({ initState defaultConfig with
          total_cg := ((initState defaultConfig).total_cg + (1 + 1)) %
            U64_MOD }, []) ∧
    nvbit_at_term defaultConfig
        (run defaultConfig ctxEmpty (initState defaultConfig)
          (coopLaunchEvents CbId.cuLaunchCooperativeKernel 3 (1 + 1))).1 =
      ["Total indirect function calls: 0",
       "Total cooperative group kernel launches: 2",
       "Total instructions (warp level): 0",
       "Total __shfl_sync() calls: 0",
       "Total __ballot_sync() calls: 0"] :=
  ⟨by decide,
   c8_cooperative_frame defaultConfig ctxEmpty CbId.cuLaunchCooperativeKernel
     3 1 (initState defaultConfig) (by decide),
   by decide⟩

/-- C10: a cooperative-launch callback performs none of the launch
protocol: both phases make no external call (no mutex, no probe insertion,
no enable, no synchronization) and the entry phase leaves the state fully
unchanged; the only state change is the cooperative total increment at
exit. -/
theorem c10_cooperative_no_protocol :
    ∀ (cfg : Config) (ctx : Ctx) (st : ToolState) (cbid : CbId) (f : FuncId),
    isCoopLaunchId cbid = true →
    nvbit_at_cuda_event cfg ctx st cbid false f = (st, []) ∧
    nvbit_at_cuda_event cfg ctx st cbid true f =
      ({ st with total_cg := (st.total_cg + 1) % U64_MOD }, []) :=
  fun cfg ctx st _cbid f h =>
    ⟨coop_entry_step cfg ctx st f h, coop_exit_step cfg ctx st f h⟩

theorem c10_witness :
    nvbit_at_cuda_event defaultConfig ctxEmpty (initState defaultConfig)
        CbId.cuLaunchCooperativeKernel false 3 =
      (initState defaultConfig, []) ∧
    nvbit_at_cuda_event defaultConfig ctxEmpty (initState defaultConfig)
        CbId.cuLaunchCooperativeKernel true 3 =
      ({ initState defaultConfig with
          total_cg := ((initState defaultConfig).total_cg + 1) % U64_MOD },
        []) :=
  c10_cooperative_no_protocol defaultConfig ctxEmpty (initState defaultConfig)
    CbId.cuLaunchCooperativeKernel 3 (by decide)

end BenchmarkProfile
